import Mathlib

/-!
Verification of the named-semaphore wrapper (`src/lib.rs`).

The Rust library is a thin safe layer over the POSIX named-semaphore
system calls.  We embed it shallowly:

* names are byte lists (`List Nat`); `CString::new` becomes `cstringNew`,
  which fails exactly when the bytes contain an embedded NUL;
* the operating system is an explicit oracle (`Env`): each system call is a
  field returning either an errno (`Except.error e`, modelling the call
  returning `-1`/`SEM_FAILED` with `errno = e`) or its success value;
* every wrapper function additionally returns the list of `Event`s it
  performed (name conversions and system calls issued), so call-order and
  "no system call happened" properties are stated as trace equalities;
* for the counting behaviour of `post`/`wait`/`get_value` we add a small
  kernel-state model of one POSIX semaphore (its semantics is not part of
  the repository's sources, so it is modelled from the spec).
-/

/-! ## libc constants (Linux values used by the crate) -/

def O_CREAT : Nat := 64

def O_EXCL : Nat := 128

def S_IRWXU : Nat := 0o700

def S_IRWXG : Nat := 0o070

def S_IRWXO : Nat := 0o007

/-! ## SemFSMode

The crate declares a bitflags type whose named flags are the three whole
permission facets `USER`, `GROUP`, `OTHER` and their union `ALL`.  A value
of the type is a set of these facets; we represent it by one Boolean per
facet and compute the encoded bits exactly as the bitflags union does. -/

structure SemFSMode where
  user : Bool
  group : Bool
  other : Bool
deriving DecidableEq, Repr

namespace SemFSMode

/-- Encoded permission bits: the union of the selected facets. -/
def bits (m : SemFSMode) : Nat :=
  (if m.user then S_IRWXU else 0) |||
    (if m.group then S_IRWXG else 0) |||
    (if m.other then S_IRWXO else 0)

/-- `SemFSMode::USER` -/
def USER : SemFSMode := ⟨true, false, false⟩

/-- `SemFSMode::GROUP` -/
def GROUP : SemFSMode := ⟨false, true, false⟩

/-- `SemFSMode::OTHER` -/
def OTHER : SemFSMode := ⟨false, false, true⟩

/-- `SemFSMode::ALL = GROUP | OTHER | USER` -/
def ALL : SemFSMode := ⟨true, true, true⟩

end SemFSMode

/-! ## SemOFlags -/

namespace SemOFlags

/-- `SemOFlags::CREATE = O_CREAT` -/
def CREATE : Nat := O_CREAT

/-- `SemOFlags::OPEN = 0` -/
def OPEN : Nat := 0

/-- `SemOFlags::CREATE_EXCL = CREATE | O_EXCL` -/
def CREATE_EXCL : Nat := CREATE ||| O_EXCL

end SemOFlags

/-! ## Errors, events, the OS oracle -/

/-- `std::io::Error` as the wrapper can produce it: either the
`NulError` from `CString::new` (converted by `?`) or
`Error::last_os_error()` carrying an errno. -/
inductive IoError where
  | nulError
  | osError (errno : Nat)
deriving DecidableEq, Repr

/-- Observable actions the wrapper performs, in order. -/
inductive Event where
  | convert (name : List Nat)
  | sysOpen (name : List Nat) (oflags : Nat)
  | sysOpenC (name : List Nat) (oflags : Nat) (mode : Nat) (value : Nat)
  | sysPost (raw : Nat)
  | sysWait (raw : Nat)
  | sysGetValue (raw : Nat)
  | sysClose (raw : Nat)
deriving DecidableEq, Repr

/-- The operating system, as an oracle answering each system call.
An `Except.error e` answer models the call failing (returning
`SEM_FAILED` resp. `-1`) with `errno = e`; `Except.ok` carries the
returned handle or out-parameter value. -/
structure Env where
  semOpen : List Nat → Nat → Except Nat Nat
  semOpenC : List Nat → Nat → Nat → Nat → Except Nat Nat
  semPost : Nat → Except Nat Unit
  semWait : Nat → Except Nat Unit
  semGetValue : Nat → Except Nat Int
  semClose : Nat → Except Nat Unit

/-- `CString::new(name.as_bytes())`: fails iff the bytes contain an
embedded NUL; otherwise the same bytes are passed to the system call. -/
def cstringNew (name : List Nat) : Option (List Nat) :=
  if name.contains 0 then none else some name

/-- `NamedSemaphore { raw: *mut sem_t }`: the handle stores one raw
resource reference obtained at construction. -/
structure NamedSemaphore where
  raw : Nat
deriving DecidableEq, Repr

namespace NamedSemaphore

/-- `NamedSemaphore::create(name, mode, value, create_exclusive)`. -/
def create (env : Env) (name : List Nat) (mode : SemFSMode) (value : Nat)
    (create_exclusive : Bool) :
    Except IoError NamedSemaphore × List Event :=
  match cstringNew name with
  | none => (.error .nulError, [.convert name])
  | some cname =>
    let oflags := if create_exclusive then SemOFlags.CREATE_EXCL else SemOFlags.CREATE
    match env.semOpenC cname oflags mode.bits value with
    | .error e =>
      (.error (.osError e), [.convert name, .sysOpenC cname oflags mode.bits value])
    | .ok raw =>
      (.ok ⟨raw⟩, [.convert name, .sysOpenC cname oflags mode.bits value])

/-- `NamedSemaphore::open(name)`. -/
def «open» (env : Env) (name : List Nat) :
    Except IoError NamedSemaphore × List Event :=
  match cstringNew name with
  | none => (.error .nulError, [.convert name])
  | some cname =>
    match env.semOpen cname SemOFlags.OPEN with
    | .error e => (.error (.osError e), [.convert name, .sysOpen cname SemOFlags.OPEN])
    | .ok raw => (.ok ⟨raw⟩, [.convert name, .sysOpen cname SemOFlags.OPEN])

/-- `NamedSemaphore::open_or_create(name, mode, value, create_exclusive)`:
`match Self::open(name) { Ok(raw) => Ok(raw), _ => Self::create(..) }`. -/
def open_or_create (env : Env) (name : List Nat) (mode : SemFSMode) (value : Nat)
    (create_exclusive : Bool) :
    Except IoError NamedSemaphore × List Event :=
  match NamedSemaphore.«open» env name with
  | (.ok s, tr) => (.ok s, tr)
  | (.error _, tr) =>
    let c := NamedSemaphore.create env name mode value create_exclusive
    (c.1, tr ++ c.2)

/-- `NamedSemaphore::post(&self)`. -/
def post (env : Env) (s : NamedSemaphore) : Except IoError Unit × List Event :=
  match env.semPost s.raw with
  | .error e => (.error (.osError e), [.sysPost s.raw])
  | .ok _ => (.ok (), [.sysPost s.raw])

/-- `NamedSemaphore::wait(&self)`. -/
def wait (env : Env) (s : NamedSemaphore) : Except IoError Unit × List Event :=
  match env.semWait s.raw with
  | .error e => (.error (.osError e), [.sysWait s.raw])
  | .ok _ => (.ok (), [.sysWait s.raw])

/-- `NamedSemaphore::get_value(&self)`: returns the out-parameter the
system call wrote, unchanged. -/
def get_value (env : Env) (s : NamedSemaphore) : Except IoError Int × List Event :=
  match env.semGetValue s.raw with
  | .error e => (.error (.osError e), [.sysGetValue s.raw])
  | .ok val => (.ok val, [.sysGetValue s.raw])

/-- `Drop::drop`: `let _ = unsafe { libc::sem_close(self.raw) };` — one
close call, its result discarded. -/
def drop (env : Env) (s : NamedSemaphore) : Unit × List Event :=
  let _ := env.semClose s.raw
  ((), [.sysClose s.raw])

end NamedSemaphore

/-! ## Kernel-state model of one POSIX semaphore

The counting semantics of `sem_post`/`sem_wait`/`sem_getvalue` lives in
the operating system, not in the repository's sources.  Modelled from the
spec: the count is a signed integer (zero-or-negative readings are
OS-defined and must be passed through), `post` atomically increments it
and reports overflow as a system error rather than clamping, `wait`
blocks while the count is below 1 (blocking is represented by `none`) and
otherwise atomically decrements and returns at once, and `getvalue` reads
the count without modifying it. -/

structure Kernel where
  count : Int
deriving DecidableEq, Repr

def SEM_VALUE_MAX : Int := 2147483647

/-- Modelled from the spec: `sem_post` increments the count, failing
with `EOVERFLOW` (not clamping) at the OS maximum. -/
def semPostSys (k : Kernel) : Kernel × Except Nat Unit :=
  if k.count < SEM_VALUE_MAX then (⟨k.count + 1⟩, .ok ()) else (k, .error 75)

/-- Modelled from the spec: `sem_wait` decrements a count that is at
least 1 and returns immediately; otherwise it blocks (`none`). -/
def semWaitSys (k : Kernel) : Option (Kernel × Except Nat Unit) :=
  if 1 ≤ k.count then some (⟨k.count - 1⟩, .ok ()) else none

/-- Modelled from the spec: `sem_getvalue` writes the current count to
the out-parameter and leaves the semaphore unchanged. -/
def semGetValueSys (k : Kernel) : Kernel × Except Nat Int :=
  (k, .ok k.count)

namespace KernelModel

/-- `post` run against the kernel model: the wrapper's `-1`/errno check
applied to `semPostSys`. -/
def post (k : Kernel) : Kernel × Except IoError Unit :=
  match semPostSys k with
  | (k', .error e) => (k', .error (.osError e))
  | (k', .ok _) => (k', .ok ())

/-- `wait` run against the kernel model; `none` means the call blocks. -/
def wait (k : Kernel) : Option (Kernel × Except IoError Unit) :=
  match semWaitSys k with
  | none => none
  | some (k', .error e) => some (k', .error (.osError e))
  | some (k', .ok _) => some (k', .ok ())

/-- `get_value` run against the kernel model: returns the out-parameter
exactly as written. -/
def get_value (k : Kernel) : Kernel × Except IoError Int :=
  match semGetValueSys k with
  | (k', .error e) => (k', .error (.osError e))
  | (k', .ok val) => (k', .ok val)

end KernelModel

/-! ## Concrete environments used by the witnesses -/

/-- An OS in which every call succeeds; `sem_open` hands out handle 5
for plain opens and 7 for creations. -/
def envOk : Env :=
  ⟨fun _ _ => .ok 5, fun _ _ _ _ => .ok 7,
   fun _ => .ok (), fun _ => .ok (), fun _ => .ok 0, fun _ => .ok ()⟩

/-- An OS in which opening fails with `EACCES` (13) and creating fails
with `EEXIST` (17). -/
def envFail : Env :=
  ⟨fun _ _ => .error 13, fun _ _ _ _ => .error 17,
   fun _ => .error 22, fun _ => .error 4, fun _ => .error 22, fun _ => .error 22⟩

/-- An OS whose `sem_getvalue` writes a negative value (blocked
waiters, on systems that report them). -/
def envNeg : Env :=
  ⟨fun _ _ => .ok 5, fun _ _ _ _ => .ok 7,
   fun _ => .ok (), fun _ => .ok (), fun _ => .ok (-2), fun _ => .ok ()⟩

/-! ## Unfolding lemmas -/

theorem cstringNew_eq_some (name : List Nat) (h : name.contains 0 = false) :
    cstringNew name = some name := by
  unfold cstringNew
  rw [h]
  rfl

theorem cstringNew_eq_none (name : List Nat) (h : name.contains 0 = true) :
    cstringNew name = none := by
  unfold cstringNew
  rw [h]
  rfl

theorem open_eq_ok (env : Env) (name : List Nat) (r : Nat)
    (hnul : name.contains 0 = false)
    (h : env.semOpen name SemOFlags.OPEN = .ok r) :
    NamedSemaphore.«open» env name =
      (.ok ⟨r⟩, [Event.convert name, Event.sysOpen name SemOFlags.OPEN]) := by
  simp only [NamedSemaphore.«open», cstringNew_eq_some name hnul, h]

theorem open_eq_err (env : Env) (name : List Nat) (e : Nat)
    (hnul : name.contains 0 = false)
    (h : env.semOpen name SemOFlags.OPEN = .error e) :
    NamedSemaphore.«open» env name =
      (.error (.osError e), [Event.convert name, Event.sysOpen name SemOFlags.OPEN]) := by
  simp only [NamedSemaphore.«open», cstringNew_eq_some name hnul, h]

theorem open_eq_nul (env : Env) (name : List Nat) (h : name.contains 0 = true) :
    NamedSemaphore.«open» env name = (.error .nulError, [Event.convert name]) := by
  simp only [NamedSemaphore.«open», cstringNew_eq_none name h]

theorem create_eq_nul (env : Env) (name : List Nat) (mode : SemFSMode)
    (value : Nat) (ce : Bool) (h : name.contains 0 = true) :
    NamedSemaphore.create env name mode value ce =
      (.error .nulError, [Event.convert name]) := by
  simp only [NamedSemaphore.create, cstringNew_eq_none name h]

theorem create_eq_err (env : Env) (name : List Nat) (mode : SemFSMode)
    (value : Nat) (ce : Bool) (e : Nat)
    (hnul : name.contains 0 = false)
    (h : env.semOpenC name (if ce then SemOFlags.CREATE_EXCL else SemOFlags.CREATE)
           mode.bits value = .error e) :
    NamedSemaphore.create env name mode value ce =
      (.error (.osError e),
       [Event.convert name,
        Event.sysOpenC name (if ce then SemOFlags.CREATE_EXCL else SemOFlags.CREATE)
          mode.bits value]) := by
  simp only [NamedSemaphore.create, cstringNew_eq_some name hnul, h]

theorem create_snd (env : Env) (name : List Nat) (mode : SemFSMode)
    (value : Nat) (ce : Bool) (hnul : name.contains 0 = false) :
    (NamedSemaphore.create env name mode value ce).2 =
      [Event.convert name,
       Event.sysOpenC name (if ce then SemOFlags.CREATE_EXCL else SemOFlags.CREATE)
         mode.bits value] := by
  simp only [NamedSemaphore.create, cstringNew_eq_some name hnul]
  cases env.semOpenC name (if ce then SemOFlags.CREATE_EXCL else SemOFlags.CREATE)
      mode.bits value <;> rfl

theorem open_snd (env : Env) (name : List Nat) (hnul : name.contains 0 = false) :
    (NamedSemaphore.«open» env name).2 =
      [Event.convert name, Event.sysOpen name SemOFlags.OPEN] := by
  simp only [NamedSemaphore.«open», cstringNew_eq_some name hnul]
  cases env.semOpen name SemOFlags.OPEN <;> rfl

theorem post_snd (env : Env) (s : NamedSemaphore) :
    (NamedSemaphore.post env s).2 = [Event.sysPost s.raw] := by
  unfold NamedSemaphore.post
  cases env.semPost s.raw <;> rfl

theorem wait_snd (env : Env) (s : NamedSemaphore) :
    (NamedSemaphore.wait env s).2 = [Event.sysWait s.raw] := by
  unfold NamedSemaphore.wait
  cases env.semWait s.raw <;> rfl

theorem get_value_snd (env : Env) (s : NamedSemaphore) :
    (NamedSemaphore.get_value env s).2 = [Event.sysGetValue s.raw] := by
  unfold NamedSemaphore.get_value
  cases env.semGetValue s.raw <;> rfl

/-! ## Claims -/

/-- C1: `open_or_create` attempts `open` first and on success returns
`open`'s handle, having issued exactly one system call (the 2-argument
open) and no create call — so an existing semaphore's count is observed,
never reset; only when `open` fails does it issue the single `create`
call, strictly after the open call, and it returns `create`'s result.
The order open-first/create-second is exact in the trace and neither
call is repeated. -/
theorem c1_open_first_create_fallback (env : Env) (name : List Nat)
    (mode : SemFSMode) (value : Nat) (ce : Bool)
    (hnul : name.contains 0 = false) :
    (∀ r, env.semOpen name SemOFlags.OPEN = .ok r →
      NamedSemaphore.open_or_create env name mode value ce =
        (.ok ⟨r⟩, [Event.convert name, Event.sysOpen name SemOFlags.OPEN])) ∧
    (∀ e, env.semOpen name SemOFlags.OPEN = .error e →
      NamedSemaphore.open_or_create env name mode value ce =
        ((NamedSemaphore.create env name mode value ce).1,
         [Event.convert name, Event.sysOpen name SemOFlags.OPEN,
          Event.convert name,
          Event.sysOpenC name (if ce then SemOFlags.CREATE_EXCL else SemOFlags.CREATE)
            mode.bits value])) := by
  constructor
  · intro r h
    simp only [NamedSemaphore.open_or_create, open_eq_ok env name r hnul h]
  · intro e h
    simp only [NamedSemaphore.open_or_create, open_eq_err env name e hnul h,
      create_snd env name mode value ce hnul, List.cons_append, List.nil_append]

/-- C1 witness: with an OS that answers the plain open with handle 5,
`open_or_create` returns that handle after a single open call. -/
theorem c1_open_first_create_fallback_witness :
    NamedSemaphore.open_or_create envOk [84] SemFSMode.ALL 3 true =
      (.ok ⟨5⟩, [Event.convert [84], Event.sysOpen [84] SemOFlags.OPEN]) :=
  (c1_open_first_create_fallback envOk [84] SemFSMode.ALL 3 true (by decide)).1 5 rfl

/-- C2: whatever the cause of the `open` failure (any errno `e`, not only
"does not exist"), `open_or_create` goes on to issue the `create` call,
and when that fallback also fails the returned error is `create`'s errno
`e'`, not the original open error. -/
theorem c2_fallback_error_from_create (env : Env) (name : List Nat)
    (mode : SemFSMode) (value : Nat) (ce : Bool) (e e' : Nat)
    (hnul : name.contains 0 = false)
    (ho : env.semOpen name SemOFlags.OPEN = .error e)
    (hc : env.semOpenC name (if ce then SemOFlags.CREATE_EXCL else SemOFlags.CREATE)
            mode.bits value = .error e') :
    (NamedSemaphore.open_or_create env name mode value ce).1 =
      .error (.osError e') ∧
    Event.sysOpenC name (if ce then SemOFlags.CREATE_EXCL else SemOFlags.CREATE)
        mode.bits value ∈ (NamedSemaphore.open_or_create env name mode value ce).2 := by
  have h1 := (c1_open_first_create_fallback env name mode value ce hnul).2 e ho
  rw [h1, create_eq_err env name mode value ce e' hnul hc]
  simp

/-- C2 witness: open fails with `EACCES` (13), create fails with
`EEXIST` (17); the surfaced error is 17, create's. -/
theorem c2_fallback_error_from_create_witness :
    (NamedSemaphore.open_or_create envFail [84] SemFSMode.ALL 0 false).1 =
      .error (.osError 17) ∧
    Event.sysOpenC [84] SemOFlags.CREATE SemFSMode.ALL.bits 0 ∈
      (NamedSemaphore.open_or_create envFail [84] SemFSMode.ALL 0 false).2 :=
  c2_fallback_error_from_create envFail [84] SemFSMode.ALL 0 false 13 17
    (by decide) rfl rfl

/-- C3: a name with an embedded NUL byte makes both `create` and `open`
fail with the name-encoding error; the failure comes from the
name-to-C-string conversion and the trace holds no system call, so no OS
resource is created or touched. -/
theorem c3_nul_name_fails_before_syscall (env : Env) (name : List Nat)
    (mode : SemFSMode) (value : Nat) (ce : Bool)
    (h : name.contains 0 = true) :
    NamedSemaphore.create env name mode value ce =
      (.error .nulError, [Event.convert name]) ∧
    NamedSemaphore.«open» env name =
      (.error .nulError, [Event.convert name]) :=
  ⟨create_eq_nul env name mode value ce h, open_eq_nul env name h⟩

/-- C3 witness: the name `[84, 0, 65]` (a NUL in the middle) fails both
constructors with the name-encoding error and no system call, even
against an OS that would answer every call successfully. -/
theorem c3_nul_name_fails_before_syscall_witness :
    NamedSemaphore.create envOk [84, 0, 65] SemFSMode.ALL 1 true =
      (.error .nulError, [Event.convert [84, 0, 65]]) ∧
    NamedSemaphore.«open» envOk [84, 0, 65] =
      (.error .nulError, [Event.convert [84, 0, 65]]) :=
  c3_nul_name_fails_before_syscall envOk [84, 0, 65] SemFSMode.ALL 1 true (by decide)

/-- C4: the open-policy flag encoding: `create` without exclusivity
passes exactly the create bit (`O_CREAT`, whose exclusivity bit is not
set), `create` with exclusivity passes `O_CREAT ||| O_EXCL`, and `open`
passes exactly the zero open-only flags. -/
theorem c4_oflags_encoding (env : Env) (name : List Nat) (mode : SemFSMode)
    (value : Nat) (hnul : name.contains 0 = false) :
    SemOFlags.CREATE = O_CREAT ∧
    O_CREAT &&& O_EXCL = 0 ∧
    SemOFlags.CREATE_EXCL = (O_CREAT ||| O_EXCL) ∧
    SemOFlags.OPEN = 0 ∧
    (NamedSemaphore.create env name mode value false).2 =
      [Event.convert name, Event.sysOpenC name SemOFlags.CREATE mode.bits value] ∧
    (NamedSemaphore.create env name mode value true).2 =
      [Event.convert name, Event.sysOpenC name SemOFlags.CREATE_EXCL mode.bits value] ∧
    (NamedSemaphore.«open» env name).2 =
      [Event.convert name, Event.sysOpen name SemOFlags.OPEN] := by
  refine ⟨rfl, by decide, rfl, rfl, ?_, ?_, open_snd env name hnul⟩
  · exact create_snd env name mode value false hnul
  · exact create_snd env name mode value true hnul

/-- C4 witness: the three call shapes at a concrete name and mode. -/
theorem c4_oflags_encoding_witness :
    (NamedSemaphore.create envOk [84] SemFSMode.ALL 1 false).2 =
      [Event.convert [84], Event.sysOpenC [84] SemOFlags.CREATE SemFSMode.ALL.bits 1] ∧
    (NamedSemaphore.«open» envOk [84]).2 =
      [Event.convert [84], Event.sysOpen [84] SemOFlags.OPEN] :=
  ⟨(c4_oflags_encoding envOk [84] SemFSMode.ALL 1 (by decide)).2.2.2.2.1,
   (c4_oflags_encoding envOk [84] SemFSMode.ALL 1 (by decide)).2.2.2.2.2.2⟩

/-- C5: dropping a handle performs exactly one close call on its raw
reference and returns `()` whatever the close call's outcome — the
result is discarded, so a release failure is neither a panic nor a
propagated error (the return type cannot carry one). -/
theorem c5_drop_closes_once_discards (env : Env) (s : NamedSemaphore) :
    NamedSemaphore.drop env s = ((), [Event.sysClose s.raw]) := rfl

/-- C8: `ALL`'s encoding equals the bitwise union of the `USER`, `GROUP`
and `OTHER` facet encodings, and every mode's encoding is a union of the
three primitive bit groups with each facet all-or-nothing: each facet's
bits are either fully present or fully absent, and no bit outside the
three facets occurs. -/
theorem c8_mode_bits_union :
    SemFSMode.ALL.bits =
      (SemFSMode.USER.bits ||| SemFSMode.GROUP.bits ||| SemFSMode.OTHER.bits) ∧
    ∀ m : SemFSMode,
      (m.bits &&& S_IRWXU = S_IRWXU ∨ m.bits &&& S_IRWXU = 0) ∧
      (m.bits &&& S_IRWXG = S_IRWXG ∨ m.bits &&& S_IRWXG = 0) ∧
      (m.bits &&& S_IRWXO = S_IRWXO ∨ m.bits &&& S_IRWXO = 0) ∧
      m.bits = ((m.bits &&& S_IRWXU) ||| (m.bits &&& S_IRWXG) |||
        (m.bits &&& S_IRWXO)) := by
  refine ⟨by decide, fun m => ?_⟩
  rcases m with ⟨u, g, o⟩
  cases u <;> cases g <;> cases o <;> exact ⟨by decide, by decide, by decide, by decide⟩

/-- C6: against the kernel model, from a state whose observed count is
`c`, a successful `post` followed by `get_value` observes `c + 1`; and
when `1 ≤ c`, `wait` does not block (it returns `some` at once, with a
success result) and the subsequent `get_value` observes `c - 1`. -/
theorem c6_post_wait_counts (k : Kernel) (c : Int)
    (hc : (KernelModel.get_value k).2 = .ok c)
    (hmax : k.count < SEM_VALUE_MAX) :
    ((KernelModel.post k).2 = .ok () ∧
      (KernelModel.get_value (KernelModel.post k).1).2 = .ok (c + 1)) ∧
    (1 ≤ c →
      ∃ k', KernelModel.wait k = some (k', Except.ok ()) ∧
        (KernelModel.get_value k').2 = .ok (c - 1)) := by
  simp only [KernelModel.get_value, semGetValueSys, Except.ok.injEq] at hc
  subst hc
  refine ⟨?_, fun h1 => ?_⟩
  · simp [KernelModel.post, KernelModel.get_value, semPostSys, semGetValueSys, hmax]
  · exact ⟨⟨k.count - 1⟩,
      by simp [KernelModel.wait, KernelModel.get_value, semWaitSys, semGetValueSys, h1]⟩

/-- C6 witness: at count 2, post makes the observed count 3; wait
returns immediately and the observed count becomes 1. -/
theorem c6_post_wait_counts_witness :
    ((KernelModel.post ⟨2⟩).2 = .ok () ∧
      (KernelModel.get_value (KernelModel.post ⟨2⟩).1).2 = .ok (2 + 1)) ∧
    (1 ≤ (2 : Int) →
      ∃ k', KernelModel.wait ⟨2⟩ = some (k', Except.ok ()) ∧
        (KernelModel.get_value k').2 = .ok (2 - 1)) :=
  c6_post_wait_counts ⟨2⟩ 2 rfl (by decide)

/-- C7: `get_value` leaves the kernel state (hence the count) unchanged
and returns exactly the signed integer the OS wrote — the wrapper does
not normalize or clamp it, also when it is zero or negative: the second
conjunct passes through an arbitrary out-parameter value `v`. -/
theorem c7_get_value_passthrough (k : Kernel) (env : Env) (s : NamedSemaphore)
    (v : Int) (h : env.semGetValue s.raw = .ok v) :
    KernelModel.get_value k = (k, Except.ok k.count) ∧
    NamedSemaphore.get_value env s = (.ok v, [Event.sysGetValue s.raw]) := by
  refine ⟨rfl, ?_⟩
  simp only [NamedSemaphore.get_value, h]

/-- C7 witness: a negative kernel count (-3) and a negative OS-written
value (-2) both come back exactly as written. -/
theorem c7_get_value_passthrough_witness :
    KernelModel.get_value ⟨-3⟩ = (⟨-3⟩, Except.ok (-3)) ∧
    NamedSemaphore.get_value envNeg ⟨5⟩ = (.ok (-2), [Event.sysGetValue 5]) :=
  c7_get_value_passthrough ⟨-3⟩ envNeg ⟨5⟩ (-2) rfl

/-- C9: with an embedded NUL in the name, `open_or_create` performs no
system call (its whole trace is two name conversions) and returns the
name-encoding error; `open`'s identical encoding failure is discarded by
the fallback, the conversion runs a second time inside `create`, and the
returned error is the `create` fallback's result. -/
theorem c9_open_or_create_nul_from_create (env : Env) (name : List Nat)
    (mode : SemFSMode) (value : Nat) (ce : Bool)
    (h : name.contains 0 = true) :
    NamedSemaphore.open_or_create env name mode value ce =
      (.error .nulError, [Event.convert name, Event.convert name]) ∧
    (NamedSemaphore.open_or_create env name mode value ce).1 =
      (NamedSemaphore.create env name mode value ce).1 := by
  have ho := open_eq_nul env name h
  have hc := create_eq_nul env name mode value ce h
  constructor
  · simp only [NamedSemaphore.open_or_create, ho, hc, List.cons_append, List.nil_append]
  · simp only [NamedSemaphore.open_or_create, ho, hc]

/-- C9 witness: the one-byte name `[0]`. -/
theorem c9_open_or_create_nul_from_create_witness :
    NamedSemaphore.open_or_create envOk [0] SemFSMode.ALL 4 false =
      (.error .nulError, [Event.convert [0], Event.convert [0]]) ∧
    (NamedSemaphore.open_or_create envOk [0] SemFSMode.ALL 4 false).1 =
      (NamedSemaphore.create envOk [0] SemFSMode.ALL 4 false).1 :=
  c9_open_or_create_nul_from_create envOk [0] SemFSMode.ALL 4 false (by decide)

/-- C10: the handle returned by construction stores the raw reference
the OS handed out; `post`, `wait` and `get_value` each issue exactly one
system call, on that same stored reference (by shared reference — the
handle value itself is immutable data and is not returned modified), and
none of them closes it: the only close call is the one `drop` issues. -/
theorem c10_ops_address_constructed_raw (env : Env) (name : List Nat) (r : Nat)
    (hnul : name.contains 0 = false)
    (ho : env.semOpen name SemOFlags.OPEN = .ok r) :
    ∃ s : NamedSemaphore,
      NamedSemaphore.«open» env name =
        (.ok s, [Event.convert name, Event.sysOpen name SemOFlags.OPEN]) ∧
      s.raw = r ∧
      (NamedSemaphore.post env s).2 = [Event.sysPost r] ∧
      (NamedSemaphore.wait env s).2 = [Event.sysWait r] ∧
      (NamedSemaphore.get_value env s).2 = [Event.sysGetValue r] ∧
      NamedSemaphore.drop env s = ((), [Event.sysClose r]) :=
  ⟨⟨r⟩, open_eq_ok env name r hnul ho, rfl,
    post_snd env ⟨r⟩, wait_snd env ⟨r⟩, get_value_snd env ⟨r⟩, rfl⟩

/-- C10 witness: with `envOk` the constructed handle stores reference 5
and every operation addresses it. -/
theorem c10_ops_address_constructed_raw_witness :
    ∃ s : NamedSemaphore,
      NamedSemaphore.«open» envOk [84] =
        (.ok s, [Event.convert [84], Event.sysOpen [84] SemOFlags.OPEN]) ∧
      s.raw = 5 ∧
      (NamedSemaphore.post envOk s).2 = [Event.sysPost 5] ∧
      (NamedSemaphore.wait envOk s).2 = [Event.sysWait 5] ∧
      (NamedSemaphore.get_value envOk s).2 = [Event.sysGetValue 5] ∧
      NamedSemaphore.drop envOk s = ((), [Event.sysClose 5]) :=
  c10_ops_address_constructed_raw envOk [84] 5 (by decide) rfl
